import Mathlib

/-!
Verification of the smart-home controller (`src/smart_home_controller.py`).

Shallow embedding conventions:
* Python floats are modelled as rationals (`ℚ`); `random.uniform(a, b)` is
  modelled by an arbitrary rational argument constrained to `[a, b]`.
* `datetime.now().isoformat()` timestamps are opaque strings supplied as
  arguments.
* The SQLite database is a pure value `DB`: the `sensor_readings` table is a
  list of rows in insertion order (with the AUTOINCREMENT id made explicit),
  the `device_states` table a list of rows.  The `UNIQUE` constraint on
  `device_id` is carried as a `Nodup` hypothesis on reachable states.
* MQTT publishes are recorded as a list of `Event`s; a transport failure is
  injected through a boolean argument (the Python code catches it internally
  and returns `False`).
* A `StorageWriteError` raised by `store_reading` is injected through the
  `storeFails` argument of `run_cycle`; the Python loop body has no handler
  for it, which `run_cycle`/`run_loop` reflect by aborting the cycle.
-/

namespace SmartHome

/-- `TEMP_THRESHOLD = 28.0` (line 25 of the source; the rational denoted by
the literal `28.0` is `28`). -/
def TEMP_THRESHOLD : ℚ := 28

/-- `TOPIC_TEMP = "home/sensors/temperature"` (line 29 of the source). -/
def TOPIC_TEMP : String := "home/sensors/temperature"

/-- A row of the `sensor_readings` table (`id` is the AUTOINCREMENT key). -/
structure Reading where
  id : ℕ
  timestamp : String
  temperature : ℚ
  humidity : ℚ
  alert_triggered : Bool
deriving DecidableEq, Repr

/-- A row of the `device_states` table (the AUTOINCREMENT `id` column is
irrelevant to every claim and omitted). -/
structure DeviceRow where
  device_id : String
  device_type : String
  state : String
  last_updated : String
deriving DecidableEq, Repr

/-- The state of the SQLite database: both tables plus the AUTOINCREMENT
counter for `sensor_readings`. -/
structure DB where
  sensor_readings : List Reading
  device_states : List DeviceRow
  next_id : ℕ
deriving DecidableEq, Repr

def emptyDB : DB := ⟨[], [], 1⟩

/-- The `device_id` column of the `device_states` table. -/
def deviceIds (db : DB) : List String := db.device_states.map (·.device_id)

/-- `Database.store_reading` (lines 83-96): one `INSERT` appending a row; the
AUTOINCREMENT id is the current counter.  `alert_triggered` arrives as the
boolean computed by the caller. -/
def store_reading (db : DB) (timestamp : String) (temperature humidity : ℚ)
    (alert_triggered : Bool) : DB :=
  { db with
    sensor_readings :=
      db.sensor_readings ++ [⟨db.next_id, timestamp, temperature, humidity, alert_triggered⟩]
    next_id := db.next_id + 1 }

/-- `Database.update_device_state` (lines 98-116): the SQL statement
`INSERT ... ON CONFLICT(device_id) DO UPDATE SET state = ?, last_updated = ?`.
If a row with this `device_id` exists the conflict clause updates its `state`
and `last_updated` only; otherwise a fresh row is inserted. -/
def update_device_state (db : DB) (timestamp device_id device_type state : String) : DB :=
  if db.device_states.any (fun r => r.device_id = device_id) then
    { db with
      device_states := db.device_states.map (fun r =>
        if r.device_id = device_id then
          { r with state := state, last_updated := timestamp }
        else r) }
  else
    { db with
      device_states := db.device_states ++ [⟨device_id, device_type, state, timestamp⟩] }

/-- `Database.get_device_state` (lines 118-133): point lookup of the `state`
column by `device_id`; `None` when absent. -/
def get_device_state (db : DB) (device_id : String) : Option String :=
  (db.device_states.find? (fun r => r.device_id = device_id)).map (·.state)

/-- Insertion step of a sort by `id` descending, modelling SQL
`ORDER BY id DESC`. -/
def insertByIdDesc (r : Reading) : List Reading → List Reading
  | [] => [r]
  | x :: xs => if x.id ≤ r.id then r :: x :: xs else x :: insertByIdDesc r xs

/-- Sort by `id` descending, modelling SQL `ORDER BY id DESC`. -/
def sortByIdDesc : List Reading → List Reading
  | [] => []
  | x :: xs => insertByIdDesc x (sortByIdDesc xs)

/-- `Database.get_recent_readings` (lines 135-148): the query
`SELECT timestamp, temperature, humidity FROM sensor_readings
ORDER BY id DESC LIMIT ?`.  A pure function of the database value: it has no
side effect on the store. -/
def get_recent_readings (db : DB) (limit : ℕ) : List (String × ℚ × ℚ) :=
  ((sortByIdDesc db.sensor_readings).take limit).map
    (fun r => (r.timestamp, r.temperature, r.humidity))

/-! ### Serialization (telemetry payloads)

`publish_sensor_data` serializes `round(temperature, 1)` and
`round(humidity, 1)`.  Python's `round` rounds half to even. -/

/-- Python's `round` to the nearest integer, rounding half to even. -/
def pyRoundInt (q : ℚ) : ℤ :=
  if q - ⌊q⌋ < 1/2 then ⌊q⌋
  else if q - ⌊q⌋ > 1/2 then ⌊q⌋ + 1
  else if Even ⌊q⌋ then ⌊q⌋ else ⌊q⌋ + 1

/-- Python's `round(x, 1)`: one decimal digit, half to even. -/
def pyRound1 (q : ℚ) : ℚ := (pyRoundInt (q * 10) : ℚ) / 10

/-- The telemetry JSON object built by `MQTTController.publish_sensor_data`
(lines 207-211): `{"temperature": round(t, 1), "humidity": round(h, 1),
"timestamp": ...}`.  JSON is self-describing, so the object is modelled
structurally. -/
structure TelemetryPayload where
  temperature : ℚ
  humidity : ℚ
  timestamp : String
deriving DecidableEq, Repr

def telemetry_payload (temperature humidity : ℚ) (timestamp : String) : TelemetryPayload :=
  ⟨pyRound1 temperature, pyRound1 humidity, timestamp⟩

/-- A conforming subscriber decodes the telemetry payload by reading its
numeric fields back. -/
def decode_telemetry (p : TelemetryPayload) : ℚ × ℚ := (p.temperature, p.humidity)

/-- The alert JSON object built by `send_alert` (lines 247-253).  Note that
`send_alert` does NOT round the temperature/humidity. -/
structure AlertPayload where
  alert_type : String
  temperature : ℚ
  humidity : ℚ
  threshold : ℚ
  timestamp : String
deriving DecidableEq, Repr

/-! ### MQTT publishes as events -/

/-- One observable action of the controller.  Publish events record the call
made on the MQTT client together with the data it serializes. -/
inductive Event where
  | store (temperature humidity : ℚ) (alert : Bool)
  | publishTelemetry (temperature humidity : ℚ)
  | publishAlert (topic : String) (payload : AlertPayload)
  | publishControl (topic : String) (state : String)
deriving DecidableEq, Repr

/-- `MQTTController.publish_sensor_data` (lines 205-219): publishes the
telemetry payload to `TOPIC_TEMP`; a raised transport error (`publishOk =
false`) is caught internally, logged, and turned into `False`. -/
def publish_sensor_data (publishOk : Bool) (temperature humidity : ℚ) :
    Bool × List Event :=
  if publishOk then (true, [Event.publishTelemetry temperature humidity])
  else (false, [])

/-- `MQTTController.control_device` (lines 221-232): publishes
`{"state": state}` to `home/devices/<type>/<id>`; transport errors are caught
internally and turned into `False`. -/
def control_device (publishOk : Bool) (device_type device_id state : String) :
    Bool × List Event :=
  let topic := "home/devices/" ++ device_type ++ "/" ++ device_id
  if publishOk then (true, [Event.publishControl topic state])
  else (false, [])

/-- `send_alert` (lines 234-260): publishes the structured alert record to
`"home/alerts/temperature"` (line 246).  A transport error is caught by the
`try`/`except` inside `send_alert` and turned into `False`; the function is
total, so it never raises to its caller. -/
def send_alert (publishOk : Bool) (timestamp : String) (temperature humidity : ℚ) :
    Bool × List Event :=
  if publishOk then
    (true, [Event.publishAlert "home/alerts/temperature"
      ⟨"high_temperature", temperature, humidity, TEMP_THRESHOLD, timestamp⟩])
  else (false, [])

/-! ### Simulated sensor -/

/-- `SmartHomeSensor.read_temperature` (line 39): `22.0 + random.uniform(-2, 6)`.
The random draw `u` is an argument; `random.uniform(-2, 6)` guarantees
`-2 ≤ u ≤ 6`. -/
def read_temperature (u : ℚ) : ℚ := 22 + u

/-- `SmartHomeSensor.read_humidity` (line 43): `50.0 + random.uniform(-10, 20)`.
The random draw `v` is an argument; `random.uniform(-10, 20)` guarantees
`-10 ≤ v ≤ 20`. -/
def read_humidity (v : ℚ) : ℚ := 50 + v

/-! ### The main loop -/

/-- The threshold evaluation of `main` (line 284):
`alert_triggered = temperature > TEMP_THRESHOLD`. -/
def alert_check (temperature : ℚ) : Bool := temperature > TEMP_THRESHOLD

/-- Result of one iteration of the `while True` body of `main` (lines
278-306).  `error = true` means an exception escaped the loop body (it is
then caught by the `except Exception` handler wrapped around the whole
`while` loop, which logs and falls through to `finally`, ending `main`). -/
structure CycleResult where
  db : DB
  events : List Event
  error : Bool
deriving DecidableEq, Repr

/-- One iteration of the main loop (lines 278-306) on sample
`(temperature, humidity)`.  `storeFails` injects a `StorageWriteError` raised
by `database.store_reading` (line 287): the loop body has no handler around
that call, so the exception aborts the iteration before the MQTT publish and
alert steps. -/
def run_cycle (storeFails : Bool) (timestamp : String) (temperature humidity : ℚ)
    (db : DB) : CycleResult :=
  let alert_triggered : Bool := alert_check temperature
  if storeFails then
    { db := db, events := [], error := true }
  else
    let db1 := store_reading db timestamp temperature humidity alert_triggered
    let ev1 := [Event.store temperature humidity alert_triggered]
    let ev2 := (publish_sensor_data true temperature humidity).2
    let ev3 :=
      if alert_triggered then
        let evAlert := (send_alert true timestamp temperature humidity).2
        let evAdjust :=
          if temperature > TEMP_THRESHOLD then
            let evCmd := (control_device true "thermostat" "living_room" "on").2
            let target_temp := min (temperature - 2) 22
            let evTarget := (publish_sensor_data true target_temp humidity).2
            evCmd ++ evTarget
          else []
        evAlert ++ evAdjust
      else []
    { db := db1, events := ev1 ++ ev2 ++ ev3, error := false }

/-- The `while True` loop of `main` driven by a finite schedule of samples
(each with its storage-fault flag and timestamp).  The whole loop sits inside
a single `try` (line 277) whose `except Exception` handler (line 310) is
OUTSIDE the loop: the first escaping exception terminates the loop.  The
returned boolean records whether the loop ended through that handler. -/
def run_loop : List (Bool × String × ℚ × ℚ) → DB → DB × List Event × Bool
  | [], db => (db, [], false)
  | (storeFails, ts, t, h) :: rest, db =>
    let c := run_cycle storeFails ts t h db
    if c.error then (c.db, c.events, true)
    else
      let r := run_loop rest c.db
      (r.1, c.events ++ r.2.1, r.2.2)

/-! ### Inbound message handling -/

/-- Helper for `pySplit`: walks the characters, collecting the current
segment in reverse. -/
def pySplitAux (sep : Char) : List Char → List Char → List (List Char)
  | [], acc => [acc.reverse]
  | c :: cs, acc =>
    if c = sep then acc.reverse :: pySplitAux sep cs []
    else pySplitAux sep cs (c :: acc)

/-- Python's `str.split(sep)` for a one-character separator, as used by
`msg.topic.split('/')` (line 187): empty segments are kept, and splitting the
empty string yields `[""]`. -/
def pySplit (sep : Char) (s : String) : List String :=
  (pySplitAux sep s.data []).map String.mk

/-- A decoded inbound JSON payload: the fields `on_message` looks at.
`extraKeys` stands for any other keys of the JSON object. -/
structure InPayload where
  state : Option String
  temperature : Option ℚ
  extraKeys : List String
deriving DecidableEq, Repr

/-- `MQTTController.on_message` (lines 180-203).  `payload = none` models a
`json.JSONDecodeError` (caught at line 200: discard).  The topic is split on
`"/"`; with fewer than 3 segments nothing happens; the `device_id` segment
defaults to `"default"` when the topic has exactly 3 segments.  The database
is touched only when the payload has a `state` field.  The thermostat branch
at line 197 only logs.  Every exception is caught at line 202, so the handler
never raises. -/
def on_message (db : DB) (timestamp topic : String) (payload : Option InPayload) : DB :=
  match payload with
  | none => db
  | some p =>
    let topic_parts := pySplit '/' topic
    if topic_parts.length ≥ 3 then
      let device_type := topic_parts.getD 2 ""
      let device_id := if topic_parts.length > 3 then topic_parts.getD 3 "" else "default"
      match p.state with
      | some s => update_device_state db timestamp device_id device_type s
      | none => db
    else db

/-! ### Helper lemmas -/

/-- Rounding half to even moves a rational by at most `1/2`. -/
theorem pyRoundInt_close (q : ℚ) : |(pyRoundInt q : ℚ) - q| ≤ 1/2 := by
  have h1 : (⌊q⌋ : ℚ) ≤ q := Int.floor_le q
  have h2 : q < ⌊q⌋ + 1 := Int.lt_floor_add_one q
  unfold pyRoundInt
  split_ifs with ha hb hc <;> rw [abs_le] <;> push_cast <;> constructor <;> linarith

/-- Rounding to one decimal digit moves a rational by at most `1/20`. -/
theorem pyRound1_close (q : ℚ) : |pyRound1 q - q| ≤ 1/20 := by
  have h := pyRoundInt_close (q * 10)
  rw [abs_le] at h ⊢
  unfold pyRound1
  constructor <;> [linarith [h.1]; linarith [h.2]]

/-- When a row with this `device_id` exists, the upsert is the
`ON CONFLICT ... DO UPDATE` branch: a pointwise update of the table. -/
theorem update_device_state_of_mem (db : DB) (ts i ty s : String)
    (hmem : i ∈ deviceIds db) :
    (update_device_state db ts i ty s).device_states
      = db.device_states.map (fun r =>
          if r.device_id = i then { r with state := s, last_updated := ts } else r) := by
  obtain ⟨r0, hr0, hid⟩ := List.mem_map.mp hmem
  rw [update_device_state, if_pos]
  rw [List.any_eq_true]
  exact ⟨r0, hr0, by simp [hid]⟩

/-- When no row with this `device_id` exists, the upsert is a plain insert. -/
theorem update_device_state_of_not_mem (db : DB) (ts i ty s : String)
    (hmem : i ∉ deviceIds db) :
    (update_device_state db ts i ty s).device_states
      = db.device_states ++ [⟨i, ty, s, ts⟩] := by
  rw [update_device_state, if_neg]
  simp only [List.any_eq_true, not_exists, not_and]
  intro r hr
  simp only [decide_eq_true_eq]
  intro hid
  exact hmem (List.mem_map.mpr ⟨r, hr, hid⟩)

/-- In a table whose `device_id` column has no duplicates, at most one row
carries a given `device_id`. -/
theorem countKey_le_one (l : List DeviceRow) (i : String)
    (h : (l.map (·.device_id)).Nodup) :
    l.countP (fun r => r.device_id = i) ≤ 1 := by
  induction l with
  | nil => simp
  | cons r l ih =>
    rw [List.map_cons, List.nodup_cons] at h
    rw [List.countP_cons]
    by_cases hid : r.device_id = i
    · have hzero : l.countP (fun r => decide (r.device_id = i)) = 0 := by
        rw [List.countP_eq_zero]
        intro a ha
        simp only [decide_eq_true_eq]
        intro hai
        refine h.1 ?_
        rw [hid, ← hai]
        exact List.mem_map_of_mem (·.device_id) ha
      simp [hid, hzero]
    · simp [hid, ih h.2]

/-- A table containing a row with a given `device_id` has at least one such
row. -/
theorem countKey_pos (l : List DeviceRow) (i : String)
    (hmem : i ∈ l.map (·.device_id)) :
    1 ≤ l.countP (fun r => r.device_id = i) := by
  obtain ⟨r, hr, hid⟩ := List.mem_map.mp hmem
  exact List.countP_pos_iff.mpr ⟨r, hr, by simp [hid]⟩

/-- The `ON CONFLICT` update branch does not change the `device_id` column. -/
theorem deviceIds_update_of_mem (db : DB) (ts i ty s : String)
    (hmem : i ∈ deviceIds db) :
    deviceIds (update_device_state db ts i ty s) = deviceIds db := by
  rw [deviceIds, update_device_state_of_mem db ts i ty s hmem, List.map_map]
  rw [deviceIds]
  apply congrFun (congrArg List.map _) db.device_states
  funext r
  by_cases hc : r.device_id = i <;> simp [Function.comp, hc]

/-- After an upsert for `i`, the table has a row keyed `i`. -/
theorem mem_deviceIds_update (db : DB) (ts i ty s : String) :
    i ∈ deviceIds (update_device_state db ts i ty s) := by
  by_cases hmem : i ∈ deviceIds db
  · rw [deviceIds_update_of_mem db ts i ty s hmem]; exact hmem
  · rw [deviceIds, update_device_state_of_not_mem db ts i ty s hmem]
    simp

/-- An upsert preserves the `UNIQUE(device_id)` invariant. -/
theorem nodup_deviceIds_update (db : DB) (ts i ty s : String)
    (hnd : (deviceIds db).Nodup) :
    (deviceIds (update_device_state db ts i ty s)).Nodup := by
  by_cases hmem : i ∈ deviceIds db
  · rw [deviceIds_update_of_mem db ts i ty s hmem]; exact hnd
  · rw [deviceIds, update_device_state_of_not_mem db ts i ty s hmem]
    rw [List.map_append]
    simp only [List.nodup_append]
    exact ⟨hnd, by simp, by simpa [deviceIds] using hmem⟩

/-- After an upsert for `i` on a table respecting `UNIQUE(device_id)`,
exactly one row is keyed `i`. -/
theorem upsert_count_one (db : DB) (ts i ty s : String)
    (hnd : (deviceIds db).Nodup) :
    (update_device_state db ts i ty s).device_states.countP
      (fun r => r.device_id = i) = 1 := by
  apply le_antisymm
  · exact countKey_le_one _ _ (nodup_deviceIds_update db ts i ty s hnd)
  · exact countKey_pos _ _ (mem_deviceIds_update db ts i ty s)

/-- After an upsert for `i`, every row keyed `i` carries the upserted `state`
and timestamp. -/
theorem upsert_state_eq (db : DB) (ts i ty s : String) :
    ∀ r ∈ (update_device_state db ts i ty s).device_states,
      r.device_id = i → r.state = s ∧ r.last_updated = ts := by
  intro r hr hid
  by_cases hmem : i ∈ deviceIds db
  · rw [update_device_state_of_mem db ts i ty s hmem] at hr
    obtain ⟨r1, hr1, hfr⟩ := List.mem_map.mp hr
    by_cases hc : r1.device_id = i
    · rw [if_pos hc] at hfr
      rw [← hfr]
      exact ⟨rfl, rfl⟩
    · rw [if_neg hc] at hfr
      exact absurd (hfr ▸ hid) hc
  · rw [update_device_state_of_not_mem db ts i ty s hmem] at hr
    rcases List.mem_append.mp hr with hin | hnew
    · exact absurd (List.mem_map.mpr ⟨r, hin, hid⟩) hmem
    · rw [List.mem_singleton.mp hnew]
      exact ⟨rfl, rfl⟩

/-- Inserting a reading below every element of a list lands at the end. -/
theorem insertByIdDesc_of_lt (r : Reading) (l : List Reading)
    (h : ∀ y ∈ l, r.id < y.id) : insertByIdDesc r l = l ++ [r] := by
  induction l with
  | nil => rfl
  | cons x xs ih =>
    rw [insertByIdDesc]
    have hx : ¬ x.id ≤ r.id := by
      have := h x (List.mem_cons_self x xs)
      omega
    rw [if_neg hx, ih (fun y hy => h y (List.mem_cons_of_mem x hy))]
    simp

/-- Sorting by `id` descending a table whose ids strictly increase in
insertion order reverses the table. -/
theorem sortByIdDesc_of_increasing (l : List Reading)
    (h : l.Pairwise (fun a b => a.id < b.id)) : sortByIdDesc l = l.reverse := by
  induction l with
  | nil => rfl
  | cons x xs ih =>
    rw [sortByIdDesc, ih (List.pairwise_cons.mp h).2]
    rw [insertByIdDesc_of_lt]
    · simp
    · intro y hy
      exact (List.pairwise_cons.mp h).1 y (List.mem_reverse.mp hy)

/-! ### Claim theorems -/

/-- Claim C1, counterexample.  On a schedule whose first sampling cycle has a
failing storage append (sample 30 °C / 50 %), followed by a second cycle
(sample 25 °C / 50 %): the loop publishes NO telemetry for the failing
sample, stores nothing afterwards, and terminates through the outer
exception handler — the second cycle never runs.  This contradicts the claim
that the telemetry is still published and the loop proceeds. -/
theorem C1_counterexample :
    run_loop [(true, "t0", 30, 50), (false, "t1", 25, 50)] emptyDB
      = (emptyDB, [], true)
  ∧ Event.publishTelemetry 30 50
      ∉ (run_loop [(true, "t0", 30, 50), (false, "t1", 25, 50)] emptyDB).2.1
  ∧ Event.store 25 50 false
      ∉ (run_loop [(true, "t0", 30, 50), (false, "t1", 25, 50)] emptyDB).2.1 := by
  refine ⟨rfl, ?_, ?_⟩ <;> simp [run_loop, run_cycle]

/-- Claim C1, amended: when `store_reading` raises a `StorageWriteError`
during a sampling cycle, the exception escapes the loop body (lines 278-306
contain no handler for it): the telemetry for that sample is NOT published,
nothing of the cycle is persisted, and the loop terminates through the
`except Exception` handler at line 310 instead of proceeding to the next
cycle. -/
theorem C1_storage_failure_aborts_loop (ts : String) (t h : ℚ)
    (rest : List (Bool × String × ℚ × ℚ)) (db : DB) :
    run_loop ((true, ts, t, h) :: rest) db = (db, [], true) := by
  simp [run_loop, run_cycle]

/-- Claim C2, counterexample.  At sample 30 °C / 50 %, `send_alert` publishes
the alert record to the topic `"home/alerts/temperature"` (line 246), which
is NOT the exact topic `"home/alerts"` claimed. -/
theorem C2_counterexample :
    (send_alert true "ts" 30 50).2
      = [Event.publishAlert "home/alerts/temperature"
          ⟨"high_temperature", 30, 50, TEMP_THRESHOLD, "ts"⟩]
  ∧ ("home/alerts/temperature" : String) ≠ "home/alerts" := by
  exact ⟨rfl, by decide⟩

/-- Claim C2, amended: `send_alert` publishes a structured alert record to
the topic `"home/alerts/temperature"` with fields
`alert_type = "high_temperature"`, `temperature`, `humidity`,
`threshold = TEMP_THRESHOLD` and `timestamp`; on transport failure it
publishes nothing and returns `false` instead of raising (the function is
total and returns its boolean success indicator). -/
theorem C2_send_alert_behavior (ok : Bool) (ts : String) (t h : ℚ) :
    (send_alert ok ts t h).1 = ok
  ∧ (send_alert true ts t h).2
      = [Event.publishAlert "home/alerts/temperature"
          ⟨"high_temperature", t, h, TEMP_THRESHOLD, ts⟩]
  ∧ (send_alert false ts t h).2 = [] := by
  cases ok <;> simp [send_alert]

/-- Claim C3: in every successful cycle, the reading appended to
`sensor_readings` stores `alert_triggered = decide (t > TEMP_THRESHOLD)`
(strict inequality), the same flag is what the cycle reports in its store
event, and a sample exactly at the threshold stores `false`. -/
theorem C3_alert_flag_strict (ts : String) (t h : ℚ) (db : DB) :
    ((run_cycle false ts t h db).db.sensor_readings.getLast?.map Reading.alert_triggered
        = some (decide (t > TEMP_THRESHOLD)))
  ∧ (Event.store t h (decide (t > TEMP_THRESHOLD)) ∈ (run_cycle false ts t h db).events)
  ∧ ((run_cycle false ts TEMP_THRESHOLD h db).db.sensor_readings.getLast?.map
        Reading.alert_triggered = some false) := by
  refine ⟨?_, ?_, ?_⟩
  · simp [run_cycle, store_reading, alert_check]
  · simp [run_cycle, alert_check]
  · simp [run_cycle, store_reading, alert_check]

/-- Claim C4: starting from any state whose `device_id` column has no
duplicates (the `UNIQUE(device_id)` constraint of `setup_database`, line 72),
upserting `(i, ty, s)` twice leaves exactly one row keyed `i`, and that
row's `state` is `s`.  The two calls may carry distinct `datetime.now()`
timestamps. -/
theorem C4_upsert_idempotent (db : DB) (ts1 ts2 i ty s : String)
    (hnd : (deviceIds db).Nodup) :
    ((update_device_state (update_device_state db ts1 i ty s) ts2 i ty s).device_states.countP
        (fun r => r.device_id = i) = 1)
  ∧ (∀ r ∈ (update_device_state (update_device_state db ts1 i ty s) ts2 i ty s).device_states,
        r.device_id = i → r.state = s) := by
  constructor
  · exact upsert_count_one _ ts2 i ty s (nodup_deviceIds_update db ts1 i ty s hnd)
  · intro r hr hid
    exact (upsert_state_eq _ ts2 i ty s r hr hid).1

/-- Claim C4, witness: from the empty store, upserting
`("living_room", "thermostat", "on")` twice leaves exactly one
`living_room` row and its state is `"on"`. -/
theorem C4_witness :
    ((deviceIds emptyDB).Nodup)
  ∧ (((update_device_state (update_device_state emptyDB "t1" "living_room" "thermostat" "on")
          "t2" "living_room" "thermostat" "on").device_states.countP
        (fun r => r.device_id = "living_room") = 1)
      ∧ (∀ r ∈ (update_device_state (update_device_state emptyDB "t1" "living_room" "thermostat" "on")
            "t2" "living_room" "thermostat" "on").device_states,
          r.device_id = "living_room" → r.state = "on")) :=
  ⟨by decide, C4_upsert_idempotent emptyDB "t1" "t2" "living_room" "thermostat" "on" (by decide)⟩

/-- Claim C5: if a row `r0` keyed `i` is already present (and `device_id` is
duplicate-free, per the `UNIQUE` constraint), an upsert with a possibly
different `device_type ty2` keeps the table length, keeps every row keyed
differently from `i` intact, rewrites only `state` and `last_updated` of the
`i` row, and every row keyed `i` afterwards still carries the first-seen
`device_type` of `r0`. -/
theorem C5_upsert_updates_only_state (db : DB) (ts i ty2 s : String) (r0 : DeviceRow)
    (hr0 : r0 ∈ db.device_states) (hid : r0.device_id = i)
    (hnd : (deviceIds db).Nodup) :
    (update_device_state db ts i ty2 s).device_states.length = db.device_states.length
  ∧ (∀ r ∈ db.device_states, r.device_id ≠ i →
        r ∈ (update_device_state db ts i ty2 s).device_states)
  ∧ ({ r0 with state := s, last_updated := ts } ∈ (update_device_state db ts i ty2 s).device_states)
  ∧ (∀ r ∈ (update_device_state db ts i ty2 s).device_states, r.device_id = i →
        r.device_type = r0.device_type ∧ r.state = s ∧ r.last_updated = ts) := by
  have hmem : i ∈ deviceIds db := List.mem_map.mpr ⟨r0, hr0, hid⟩
  have hmap := update_device_state_of_mem db ts i ty2 s hmem
  refine ⟨?_, ?_, ?_, ?_⟩
  · rw [hmap, List.length_map]
  · intro r hr hne
    rw [hmap]
    refine List.mem_map.mpr ⟨r, hr, ?_⟩
    rw [if_neg hne]
  · rw [hmap]
    refine List.mem_map.mpr ⟨r0, hr0, ?_⟩
    rw [if_pos hid]
  · intro r hr hrid
    rw [hmap] at hr
    obtain ⟨r1, hr1, hfr⟩ := List.mem_map.mp hr
    by_cases hc : r1.device_id = i
    · have hnd2 : (db.device_states.map (·.device_id)).Nodup := hnd
      have hr1r0 : r1 = r0 := by
        refine List.inj_on_of_nodup_map hnd2 hr1 hr0 ?_
        show r1.device_id = r0.device_id
        rw [hc, hid]
      rw [if_pos hc] at hfr
      subst hr1r0
      rw [← hfr]
      exact ⟨rfl, rfl, rfl⟩
    · rw [if_neg hc] at hfr
      exact absurd (hfr ▸ hrid) hc

/-- Claim C5, witness: with `living_room` first seen as a `thermostat`, a
later upsert passing `device_type = "heater"` updates only state and
timestamp and leaves the stored type `"thermostat"`. -/
theorem C5_witness :
    ((⟨"living_room", "thermostat", "on", "t0"⟩ : DeviceRow)
        ∈ (DB.mk [] [⟨"living_room", "thermostat", "on", "t0"⟩] 1).device_states
      ∧ (⟨"living_room", "thermostat", "on", "t0"⟩ : DeviceRow).device_id = "living_room"
      ∧ (deviceIds (DB.mk [] [⟨"living_room", "thermostat", "on", "t0"⟩] 1)).Nodup)
  ∧ ((update_device_state (DB.mk [] [⟨"living_room", "thermostat", "on", "t0"⟩] 1)
          "t1" "living_room" "heater" "off").device_states.length
        = (DB.mk [] [⟨"living_room", "thermostat", "on", "t0"⟩] 1).device_states.length
      ∧ (∀ r ∈ (DB.mk [] [⟨"living_room", "thermostat", "on", "t0"⟩] 1).device_states,
            r.device_id ≠ "living_room" →
            r ∈ (update_device_state (DB.mk [] [⟨"living_room", "thermostat", "on", "t0"⟩] 1)
                  "t1" "living_room" "heater" "off").device_states)
      ∧ (({ (⟨"living_room", "thermostat", "on", "t0"⟩ : DeviceRow) with
              state := "off", last_updated := "t1" })
            ∈ (update_device_state (DB.mk [] [⟨"living_room", "thermostat", "on", "t0"⟩] 1)
                "t1" "living_room" "heater" "off").device_states)
      ∧ (∀ r ∈ (update_device_state (DB.mk [] [⟨"living_room", "thermostat", "on", "t0"⟩] 1)
              "t1" "living_room" "heater" "off").device_states,
            r.device_id = "living_room" →
            r.device_type = (⟨"living_room", "thermostat", "on", "t0"⟩ : DeviceRow).device_type
              ∧ r.state = "off" ∧ r.last_updated = "t1")) :=
  ⟨⟨by decide, by decide, by decide⟩,
   C5_upsert_updates_only_state (DB.mk [] [⟨"living_room", "thermostat", "on", "t0"⟩] 1)
     "t1" "living_room" "heater" "off" ⟨"living_room", "thermostat", "on", "t0"⟩
     (by decide) (by decide) (by decide)⟩

/-- Claim C6: on any store whose reading ids strictly increase in insertion
order (the invariant the AUTOINCREMENT key guarantees, and which
`store_reading` maintains), `get_recent_readings n` for positive `n` returns
exactly the last `n` appended readings — all of them when fewer exist —
most-recent-first, i.e. the `ORDER BY id DESC` sort coincides with reverse
insertion order; being a pure function of the store value, it has no side
effects. -/
theorem C6_recent_readings_ordering (db : DB) (n : ℕ) (_hn : 0 < n)
    (hsorted : db.sensor_readings.Pairwise (fun a b => a.id < b.id)) :
    get_recent_readings db n
      = (db.sensor_readings.reverse.take n).map
          (fun r => (r.timestamp, r.temperature, r.humidity))
  ∧ (get_recent_readings db n).length = min n db.sensor_readings.length := by
  have hs := sortByIdDesc_of_increasing db.sensor_readings hsorted
  constructor
  · rw [get_recent_readings, hs]
  · rw [get_recent_readings, hs]
    simp [List.length_take]

/-- Claim C6, witness: on a three-reading store, `get_recent_readings 2`
returns the projections of the two most recent readings, newest first. -/
theorem C6_witness :
    ((0 : ℕ) < 2
      ∧ (DB.mk [⟨1, "a", 21, 50, false⟩, ⟨2, "b", 29, 55, true⟩, ⟨3, "c", 25, 60, false⟩] [] 4
          ).sensor_readings.Pairwise (fun a b => a.id < b.id))
  ∧ (get_recent_readings
        (DB.mk [⟨1, "a", 21, 50, false⟩, ⟨2, "b", 29, 55, true⟩, ⟨3, "c", 25, 60, false⟩] [] 4) 2
      = ((DB.mk [⟨1, "a", 21, 50, false⟩, ⟨2, "b", 29, 55, true⟩, ⟨3, "c", 25, 60, false⟩] [] 4
          ).sensor_readings.reverse.take 2).map
          (fun r => (r.timestamp, r.temperature, r.humidity))
      ∧ (get_recent_readings
          (DB.mk [⟨1, "a", 21, 50, false⟩, ⟨2, "b", 29, 55, true⟩, ⟨3, "c", 25, 60, false⟩] [] 4) 2
          ).length
        = min 2 (DB.mk [⟨1, "a", 21, 50, false⟩, ⟨2, "b", 29, 55, true⟩, ⟨3, "c", 25, 60, false⟩] [] 4
            ).sensor_readings.length) :=
  ⟨⟨by decide, by decide⟩,
   C6_recent_readings_ordering
     (DB.mk [⟨1, "a", 21, 50, false⟩, ⟨2, "b", 29, 55, true⟩, ⟨3, "c", 25, 60, false⟩] [] 4)
     2 (by decide) (by decide)⟩

/-- Claim C7: a message whose topic splits on `/` into fewer than 3 segments
is discarded — `on_message` returns the store unchanged and, being total,
raises nothing — and on a well-formed topic of exactly 3 segments the
handler substitutes the sentinel `device_id = "default"` (writing only when
the payload carries a `state` field, per line 193). -/
theorem C7_malformed_topic_discarded (db : DB) (ts topic : String)
    (payload : Option InPayload) :
    ((pySplit '/' topic).length < 3 → on_message db ts topic payload = db)
  ∧ (∀ p : InPayload, (pySplit '/' topic).length = 3 →
        on_message db ts topic (some p)
          = (match p.state with
             | some s => update_device_state db ts "default" ((pySplit '/' topic).getD 2 "") s
             | none => db)) := by
  constructor
  · intro hlt
    match payload with
    | none => rfl
    | some p =>
      rw [on_message]
      rw [if_neg (by omega)]
  · intro p hlen
    rw [on_message]
    rw [if_pos (by omega)]
    rw [if_neg (by omega)]

/-- Claim C7, witness: the 2-segment topic `home/devices` mutates nothing
even with a state-bearing payload, and on the 3-segment topic
`home/devices/thermostat` the write is keyed by the sentinel `"default"`. -/
theorem C7_witness :
    (((pySplit '/' "home/devices").length < 3)
      ∧ on_message emptyDB "ts" "home/devices" (some ⟨some "on", none, []⟩) = emptyDB)
  ∧ (((pySplit '/' "home/devices/thermostat").length = 3)
      ∧ on_message emptyDB "ts" "home/devices/thermostat" (some ⟨some "on", none, []⟩)
          = update_device_state emptyDB "ts" "default"
              ((pySplit '/' "home/devices/thermostat").getD 2 "") "on") :=
  ⟨⟨by decide,
    (C7_malformed_topic_discarded emptyDB "ts" "home/devices"
      (some ⟨some "on", none, []⟩)).1 (by decide)⟩,
   ⟨by decide,
    (C7_malformed_topic_discarded emptyDB "ts" "home/devices/thermostat"
      (some ⟨some "on", none, []⟩)).2 ⟨some "on", none, []⟩ (by decide)⟩⟩

/-- Claim C8: in every cycle whose sample strictly exceeds the threshold,
the event trace is exactly: store the reading, publish its telemetry,
publish the alert, publish the command `"on"` to the thermostat control
topic `home/devices/thermostat/living_room`, and publish a second
telemetry-shaped message with temperature `min (t - 2) 22`; the persisted
reading of the cycle is the original sample `(t, h)` with the alert flag —
the advisory publish alters nothing in the store. -/
theorem C8_alert_path (ts : String) (t h : ℚ) (db : DB)
    (halert : t > TEMP_THRESHOLD) :
    (run_cycle false ts t h db).events
      = [Event.store t h true,
         Event.publishTelemetry t h,
         Event.publishAlert "home/alerts/temperature"
           ⟨"high_temperature", t, h, TEMP_THRESHOLD, ts⟩,
         Event.publishControl "home/devices/thermostat/living_room" "on",
         Event.publishTelemetry (min (t - 2) 22) h]
  ∧ (run_cycle false ts t h db).db.sensor_readings
      = db.sensor_readings ++ [⟨db.next_id, ts, t, h, true⟩] := by
  have hb : alert_check t = true := by
    rw [alert_check, decide_eq_true_eq]
    exact halert
  constructor
  · simp [run_cycle, hb, halert, publish_sensor_data, send_alert, control_device]
  · simp [run_cycle, hb, store_reading]

/-- Claim C8, witness: the alert path at sample 30 °C / 50 %: control
command, then the advisory telemetry at `min (30 - 2) 22`. -/
theorem C8_witness :
    ((30 : ℚ) > TEMP_THRESHOLD)
  ∧ ((run_cycle false "ts" 30 50 emptyDB).events
      = [Event.store 30 50 true,
         Event.publishTelemetry 30 50,
         Event.publishAlert "home/alerts/temperature"
           ⟨"high_temperature", 30, 50, TEMP_THRESHOLD, "ts"⟩,
         Event.publishControl "home/devices/thermostat/living_room" "on",
         Event.publishTelemetry (min ((30 : ℚ) - 2) 22) 50]
    ∧ (run_cycle false "ts" 30 50 emptyDB).db.sensor_readings
      = emptyDB.sensor_readings ++ [⟨emptyDB.next_id, "ts", 30, 50, true⟩]) :=
  ⟨by decide, C8_alert_path "ts" 30 50 emptyDB (by decide)⟩

/-- Claim C9: decoding the telemetry payload built by `publish_sensor_data`
returns the serialized (one-decimal-rounded) sample, which lies within the
serialization precision `1/20 = 0.05` of the original temperature and
humidity. -/
theorem C9_telemetry_roundtrip (t h : ℚ) (ts : String) :
    decode_telemetry (telemetry_payload t h ts) = (pyRound1 t, pyRound1 h)
  ∧ |(decode_telemetry (telemetry_payload t h ts)).1 - t| ≤ 1/20
  ∧ |(decode_telemetry (telemetry_payload t h ts)).2 - h| ≤ 1/20 :=
  ⟨rfl, pyRound1_close t, pyRound1_close h⟩

/-- Claim C10: every simulated temperature `22 + u` with `u` drawn from
`uniform(-2, 6)` lies in `[20, 28]`, every simulated humidity `50 + v` with
`v` drawn from `uniform(-10, 20)` lies in `[40, 70]`, and under the default
threshold 28 with strict comparison no simulated sample can trigger the
alert. -/
theorem C10_simulated_sensor_never_alerts (u v : ℚ)
    (hu1 : -2 ≤ u) (hu2 : u ≤ 6) (hv1 : -10 ≤ v) (hv2 : v ≤ 20) :
    (20 ≤ read_temperature u ∧ read_temperature u ≤ 28)
  ∧ (40 ≤ read_humidity v ∧ read_humidity v ≤ 70)
  ∧ alert_check (read_temperature u) = false := by
  rw [read_temperature, read_humidity, alert_check, TEMP_THRESHOLD]
  refine ⟨⟨by linarith, by linarith⟩, ⟨by linarith, by linarith⟩, ?_⟩
  rw [decide_eq_false_iff_not, gt_iff_lt, not_lt]
  linarith

/-- Claim C10, witness: the draws `u = v = 0` are inside the uniform ranges
and give a sample that does not alert. -/
theorem C10_witness :
    ((-2 : ℚ) ≤ 0 ∧ (0 : ℚ) ≤ 6 ∧ (-10 : ℚ) ≤ 0 ∧ (0 : ℚ) ≤ 20)
  ∧ ((20 ≤ read_temperature 0 ∧ read_temperature 0 ≤ 28)
      ∧ (40 ≤ read_humidity 0 ∧ read_humidity 0 ≤ 70)
      ∧ alert_check (read_temperature 0) = false) :=
  ⟨⟨by decide, by decide, by decide, by decide⟩,
   C10_simulated_sensor_never_alerts 0 0 (by decide) (by decide) (by decide) (by decide)⟩

end SmartHome
